import Mathlib

/-!
Verification of BankLab's fact-normalization and KPI layer.

This file is a shallow embedding, in Lean 4, of the core data model and
operations of the BankLab repository:

* `src/banklab/kpi/kpi.py` — the KPI ratio functions, the `_is_invalid` /
  `_is_zero` guards, and the `calculate_all_kpis` aggregator;
* `src/banklab/clean/xbrl_normalize.py` — the `LineItemMapping` registry
  `BANK_LINE_ITEM_MAPPINGS` and the `XBRLNormalizer` methods `normalize`,
  `_normalize_ticker`, `_extract_line_item` and `to_wide_format`;
* `src/banklab/quality/checks.py` — `QualityWarning`, `QualityReport`,
  `check_balance_sheet_identity`, `QualityReport.to_dataframe`; and
  `_save_quality_report` from `src/banklab/process/fundamentals.py`.

Modelling conventions:

* Python floats are modelled by `ℚ`; a value that may be `None`/`NaN` is an
  `Option ℚ` with `none` standing for `None` or `NaN` (the code treats the two
  identically through `_is_invalid` / `pd.isna`).
* `pandas` dates (a totally ordered type; only comparisons and `max` are used)
  are modelled by `ℤ`.
* DataFrames are modelled by lists of structures.  Grouping by a column
  (`unique()` / `groupby`) is modelled by `List.dedup` over the key values;
  pandas emits group keys in sorted rather than first-seen order, which only
  permutes the output rows and never changes their contents, so order-sensitive
  claims are not stated over group order.
* Mutation of an accumulating report object is modelled by returning the list
  of appended warnings.
-/

namespace BankLab

/-! ### KPI helpers (kpi.py `_is_invalid`, `_is_zero`) -/

/-- Epsilon of `_is_zero`: the literal `1e-10` in `kpi.py`. -/
def zeroEps : ℚ := 1 / 10 ^ 10

/-- Embeds `_is_invalid(value)`: true when the value is `None` or `NaN`
(both collapsed into `Option.none` here). -/
def is_invalid (v : Option ℚ) : Bool :=
  v.isNone

/-- Embeds `_is_zero(value)`: a valid value whose absolute value is below
`1e-10`. -/
def is_zero (v : Option ℚ) : Bool :=
  match v with
  | none => false
  | some x => decide (|x| < zeroEps)

/-! ### KPI ratio functions (kpi.py)

Each Python function's guard sequence is translated literally:
`_is_invalid` checks first, then the `_is_zero` division guard, then the
arithmetic.  After the guards the operands are known to be `some`; the
`Option.getD 0` extraction is exact there.  Every function is a total Lean
function, as every path of the Python function returns a value. -/

/-- Embeds `return_on_equity` (kpi.py lines 40-77). -/
def return_on_equity (net_income total_equity : Option ℚ)
    (annualize : Bool := true) (periods_per_year : ℤ := 4) : Option ℚ :=
  if is_invalid net_income || is_invalid total_equity then none
  else if is_zero total_equity then none
  else
    let roe := net_income.getD 0 / total_equity.getD 0
    some (if annualize then roe * (periods_per_year : ℚ) else roe)

/-- Embeds `return_on_assets`. -/
def return_on_assets (net_income total_assets : Option ℚ)
    (annualize : Bool := true) (periods_per_year : ℤ := 4) : Option ℚ :=
  if is_invalid net_income || is_invalid total_assets then none
  else if is_zero total_assets then none
  else
    let roa := net_income.getD 0 / total_assets.getD 0
    some (if annualize then roa * (periods_per_year : ℚ) else roa)

/-- Embeds `net_interest_margin`. -/
def net_interest_margin (net_interest_income total_assets : Option ℚ)
    (annualize : Bool := true) (periods_per_year : ℤ := 4) : Option ℚ :=
  if is_invalid net_interest_income || is_invalid total_assets then none
  else if is_zero total_assets then none
  else
    let nim := net_interest_income.getD 0 / total_assets.getD 0
    some (if annualize then nim * (periods_per_year : ℚ) else nim)

/-- Embeds `efficiency_ratio`. -/
def efficiency_ratio (noninterest_expense total_revenue : Option ℚ) : Option ℚ :=
  if is_invalid noninterest_expense || is_invalid total_revenue then none
  else if is_zero total_revenue then none
  else some (noninterest_expense.getD 0 / total_revenue.getD 0)

/-- Embeds `pre_provision_net_revenue`: each invalid additive term is coerced
to `0`, and the sum is always returned (never `NaN`). -/
def pre_provision_net_revenue
    (net_interest_income noninterest_income noninterest_expense : Option ℚ) :
    Option ℚ :=
  let nii := if is_invalid net_interest_income then 0 else net_interest_income.getD 0
  let non_int_inc := if is_invalid noninterest_income then 0 else noninterest_income.getD 0
  let non_int_exp := if is_invalid noninterest_expense then 0 else noninterest_expense.getD 0
  some (nii + non_int_inc - non_int_exp)

/-- Embeds `earnings_per_share`. -/
def earnings_per_share (net_income shares_outstanding : Option ℚ) : Option ℚ :=
  if is_invalid net_income || is_invalid shares_outstanding then none
  else if is_zero shares_outstanding then none
  else some (net_income.getD 0 / shares_outstanding.getD 0)

/-- Embeds `book_value_per_share`. -/
def book_value_per_share (total_equity shares_outstanding : Option ℚ) : Option ℚ :=
  if is_invalid total_equity || is_invalid shares_outstanding then none
  else if is_zero shares_outstanding then none
  else some (total_equity.getD 0 / shares_outstanding.getD 0)

/-- Embeds `tangible_book_value_per_share`: goodwill and intangibles are
coerced to `0` when invalid. -/
def tangible_book_value_per_share
    (total_equity goodwill intangible_assets shares_outstanding : Option ℚ) :
    Option ℚ :=
  if is_invalid total_equity || is_invalid shares_outstanding then none
  else if is_zero shares_outstanding then none
  else
    let gw := if is_invalid goodwill then 0 else goodwill.getD 0
    let intang := if is_invalid intangible_assets then 0 else intangible_assets.getD 0
    let tangible_equity := total_equity.getD 0 - gw - intang
    some (tangible_equity / shares_outstanding.getD 0)

/-- Embeds `price_to_book`. -/
def price_to_book (stock_price bvps : Option ℚ) : Option ℚ :=
  if is_invalid stock_price || is_invalid bvps then none
  else if is_zero bvps then none
  else some (stock_price.getD 0 / bvps.getD 0)

/-- Embeds `price_to_earnings`. -/
def price_to_earnings (stock_price eps_ttm : Option ℚ) : Option ℚ :=
  if is_invalid stock_price || is_invalid eps_ttm then none
  else if is_zero eps_ttm then none
  else some (stock_price.getD 0 / eps_ttm.getD 0)

/-- Embeds `price_to_tangible_book`. -/
def price_to_tangible_book (stock_price tbvps : Option ℚ) : Option ℚ :=
  if is_invalid stock_price || is_invalid tbvps then none
  else if is_zero tbvps then none
  else some (stock_price.getD 0 / tbvps.getD 0)

/-- Embeds `equity_to_assets`. -/
def equity_to_assets (total_equity total_assets : Option ℚ) : Option ℚ :=
  if is_invalid total_equity || is_invalid total_assets then none
  else if is_zero total_assets then none
  else some (total_equity.getD 0 / total_assets.getD 0)

/-- Embeds `tangible_equity_ratio`: goodwill and intangibles are coerced to
`0` when invalid; the division guard is on the derived tangible assets. -/
def tangible_equity_ratio
    (total_equity goodwill intangible_assets total_assets : Option ℚ) : Option ℚ :=
  if is_invalid total_equity || is_invalid total_assets then none
  else
    let gw := if is_invalid goodwill then 0 else goodwill.getD 0
    let intang := if is_invalid intangible_assets then 0 else intangible_assets.getD 0
    let tangible_equity := total_equity.getD 0 - gw - intang
    let tangible_assets := total_assets.getD 0 - gw - intang
    if is_zero (some tangible_assets) then none
    else some (tangible_equity / tangible_assets)

/-- Embeds `leverage_ratio`. -/
def leverage_ratio (total_assets total_equity : Option ℚ) : Option ℚ :=
  if is_invalid total_assets || is_invalid total_equity then none
  else if is_zero total_equity then none
  else some (total_assets.getD 0 / total_equity.getD 0)

/-- Embeds `allowance_coverage_ratio`.  Note the source guards on
`_is_zero(loans_net)` before forming `gross_loans = loans_net + allowance`,
and then guards on `_is_zero(gross_loans)` as well. -/
def allowance_coverage_ratio
    (allowance_for_loan_losses loans_net : Option ℚ) : Option ℚ :=
  if is_invalid allowance_for_loan_losses || is_invalid loans_net then none
  else if is_zero loans_net then none
  else
    let gross_loans := loans_net.getD 0 + allowance_for_loan_losses.getD 0
    if is_zero (some gross_loans) then none
    else some (allowance_for_loan_losses.getD 0 / gross_loans)

/-- Embeds `net_charge_off_ratio`. -/
def net_charge_off_ratio (provision_for_credit_losses loans_net : Option ℚ)
    (annualize : Bool := true) (periods_per_year : ℤ := 4) : Option ℚ :=
  if is_invalid provision_for_credit_losses || is_invalid loans_net then none
  else if is_zero loans_net then none
  else
    let ratio := provision_for_credit_losses.getD 0 / loans_net.getD 0
    some (if annualize then ratio * (periods_per_year : ℚ) else ratio)

/-- Embeds `loan_to_deposit_ratio`. -/
def loan_to_deposit_ratio (loans_net total_deposits : Option ℚ) : Option ℚ :=
  if is_invalid loans_net || is_invalid total_deposits then none
  else if is_zero total_deposits then none
  else some (loans_net.getD 0 / total_deposits.getD 0)

/-- Embeds `yoy_growth`: the division is by `abs(prior_year_value)`. -/
def yoy_growth (current_value prior_year_value : Option ℚ) : Option ℚ :=
  if is_invalid current_value || is_invalid prior_year_value then none
  else if is_zero prior_year_value then none
  else some ((current_value.getD 0 - prior_year_value.getD 0) / |prior_year_value.getD 0|)

/-- Embeds `qoq_growth`. -/
def qoq_growth (current_value prior_quarter_value : Option ℚ) : Option ℚ :=
  if is_invalid current_value || is_invalid prior_quarter_value then none
  else if is_zero prior_quarter_value then none
  else some ((current_value.getD 0 - prior_quarter_value.getD 0) / |prior_quarter_value.getD 0|)

/-! ### Normalizer data model (xbrl_normalize.py) -/

/-- One row of the raw-facts DataFrame handed to `XBRLNormalizer.normalize`:
columns `date, cik, ticker, tag, value, unit, fp, fy, form` (see the
`normalize` docstring and `tests/conftest`).  `date` is the single date column
the normalizer sees (built upstream in `ingest/sec.py` as `end or filed`);
`value` is `none` when the cell is `NaN`. -/
structure RawFact where
  date : ℤ
  cik : String
  ticker : String
  tag : String
  value : Option ℚ
  unit : String
  fp : String
  fy : ℤ
  form : String
deriving DecidableEq

/-- Embeds the dataclass `LineItemMapping`. -/
structure LineItemMapping where
  name : String
  display_name : String
  category : String
  tags : List String
  is_flow : Bool
  expected_sign : String
  unit_filter : String
  description : String
deriving DecidableEq

/-- One output row of `normalize` (the long-format panel).  `value` is a plain
rational: a row is appended only when `_extract_line_item` returned a value,
so no null-valued row can exist by construction. -/
structure NormalizedRow where
  ticker : String
  fiscal_year : ℤ
  fiscal_period : String
  date : ℤ
  line_item : String
  display_name : String
  category : String
  value : ℚ
  source_tag : String
deriving DecidableEq

/-- The (entity, fiscal_year, fiscal_period, concept) key of a normalized
row, over which the spec states the uniqueness invariant. -/
def NormalizedRow.key (r : NormalizedRow) : String × ℤ × String × String :=
  (r.ticker, r.fiscal_year, r.fiscal_period, r.line_item)

/-- One row of the wide-format frame produced by `to_wide_format`: the pivot
key plus one cell per line item present for that key.  `cells` is an
association list; a column absent from the row is simply missing from it
(pandas would hold `NaN` there, which `row.get` also yields for a column
absent from the frame — both are `none` through `wideGet`). -/
structure WideRow where
  ticker : String
  fiscal_year : ℤ
  fiscal_period : String
  date : ℤ
  cells : List (String × ℚ)
deriving DecidableEq

/-- Embeds `row.get(col, np.nan)` on a wide row. -/
def wideGet (row : WideRow) (col : String) : Option ℚ :=
  row.cells.lookup col

/-! ### The resolution algorithm (`XBRLNormalizer._extract_line_item`) -/

/-- The ordered form-preference list `preferred_forms` (xbrl_normalize.py
line 675). -/
def preferred_forms : List String := ["10-K", "10-Q", "10-K/A", "10-Q/A"]

/-- The unit filter at the top of `_extract_line_item`: exact match for the
`"USD"` and `"shares"` unit filters, and NO filtering for any other
`unit_filter` value (the `else` branch keeps `period_df` whole). -/
def unitFilterFacts (m : LineItemMapping) (period_df : List RawFact) : List RawFact :=
  if m.unit_filter = "USD" then period_df.filter (fun f => f.unit == "USD")
  else if m.unit_filter = "shares" then period_df.filter (fun f => f.unit == "shares")
  else period_df

/-- The `for form in preferred_forms` loop: filter to the first preferred
form with a match, keep the whole set when none matches. -/
def filterPreferredForms : List String → List RawFact → List RawFact
  | [], tag_df => tag_df
  | form :: rest, tag_df =>
    let form_df := tag_df.filter (fun f => f.form == form)
    if form_df.isEmpty then filterPreferredForms rest tag_df else form_df

/-- Embeds `tag_df.sort_values("date", ascending=False).head(1)`: a fact of
maximal `date`.  pandas' default sort is not stable, so among equal dates the
source fixes no particular choice; this model takes the earliest-listed fact
of maximal date, and no theorem below depends on the choice among ties. -/
def latestByDate : List RawFact → Option RawFact
  | [] => none
  | f :: rest =>
    match latestByDate rest with
    | none => some f
    | some g => if g.date > f.date then some g else some f

/-- The `len(tag_df) > 1` deduplication branch of `_extract_line_item`:
form-preference filtering followed by most-recent-date selection. -/
def dedupCandidates (tag_df : List RawFact) : List RawFact :=
  if 1 < tag_df.length then
    match latestByDate (filterPreferredForms preferred_forms tag_df) with
    | some f => [f]
    | none => []
  else tag_df

/-- The `for tag in mapping.tags` loop of `_extract_line_item`: first tag
with a match wins; a `NaN` resolved value makes the loop continue with the
next tag. -/
def extractFromTags (unit_df : List RawFact) : List String → Option (ℚ × String)
  | [] => none
  | tag :: rest =>
    let tag_df := unit_df.filter (fun f => f.tag == tag)
    if tag_df.isEmpty then extractFromTags unit_df rest
    else
      match (dedupCandidates tag_df).head? with
      | none => extractFromTags unit_df rest
      | some f =>
        match f.value with
        | none => extractFromTags unit_df rest
        | some v => some (v, tag)

/-- Embeds `XBRLNormalizer._extract_line_item(period_df, mapping)`. -/
def extract_line_item (period_df : List RawFact) (m : LineItemMapping) :
    Option (ℚ × String) :=
  extractFromTags (unitFilterFacts m period_df) m.tags

/-! ### `_normalize_ticker`, `normalize`, `to_wide_format` -/

/-- Embeds `period_df["date"].max()` (the frame is nonempty whenever this is
read, because the period key came from the frame itself). -/
def maxDate : List RawFact → ℤ
  | [] => 0
  | f :: rest => (rest.map (fun g => g.date)).foldl max f.date

/-- The output row `_normalize_ticker` appends for one resolved line item:
the dict literal of xbrl_normalize.py lines 627-639. -/
def mkNormalizedRow (tkr : String) (p : ℤ × String) (period_df : List RawFact)
    (nm : String × LineItemMapping) (vt : ℚ × String) : NormalizedRow :=
  { ticker := tkr
    fiscal_year := p.1
    fiscal_period := p.2
    date := maxDate period_df
    line_item := nm.1
    display_name := nm.2.display_name
    category := nm.2.category
    value := vt.1
    source_tag := vt.2 }

/-- Embeds `XBRLNormalizer._normalize_ticker`: one pass over the distinct
(fy, fp) pairs, and for each period one pass over the mappings, appending a
row exactly when `_extract_line_item` produced a value. -/
def normalize_ticker (ticker_df : List RawFact) (tkr : String)
    (mappings : List (String × LineItemMapping)) : List NormalizedRow :=
  let periods := (ticker_df.map (fun f => (f.fy, f.fp))).dedup
  periods.flatMap (fun p =>
    let period_df := ticker_df.filter (fun f => f.fy == p.1 && f.fp == p.2)
    mappings.filterMap (fun nm =>
      (extract_line_item period_df nm.2).map (mkNormalizedRow tkr p period_df nm)))

/-- Embeds `XBRLNormalizer.normalize(raw_facts)`: the year/period filter, the
per-ticker partition, and the concatenation of per-ticker results.  The final
`sort_values(["ticker", "fiscal_year", "fiscal_period", "line_item"])` only
permutes the rows and is omitted; no claim below concerns row order. -/
def normalize (raw_facts : List RawFact) (min_year : ℤ)
    (mappings : List (String × LineItemMapping)) : List NormalizedRow :=
  let df := raw_facts.filter (fun f =>
    decide (min_year ≤ f.fy) && ["Q1", "Q2", "Q3", "Q4", "FY"].contains f.fp)
  let tickers := (df.map (fun f => f.ticker)).dedup
  tickers.flatMap (fun t =>
    normalize_ticker (df.filter (fun f => f.ticker == t)) t mappings)

/-- Embeds `XBRLNormalizer.to_wide_format`: a pivot on the key
(ticker, fiscal_year, fiscal_period, date) with one column per line item and
first-value-wins aggregation on duplicate cells (`aggfunc="first"`).  pandas
sorts the pivot index; here keys appear in `dedup` order, which only permutes
the rows. -/
def to_wide_format (normalized : List NormalizedRow) : List WideRow :=
  let keys := (normalized.map (fun r =>
    (r.ticker, r.fiscal_year, r.fiscal_period, r.date))).dedup
  keys.map (fun k =>
    let group := normalized.filter (fun r =>
      decide ((r.ticker, r.fiscal_year, r.fiscal_period, r.date) = k))
    let items := (group.map (fun r => r.line_item)).dedup
    { ticker := k.1
      fiscal_year := k.2.1
      fiscal_period := k.2.2.1
      date := k.2.2.2
      cells := items.filterMap (fun li =>
        (group.find? (fun r => r.line_item == li)).map (fun r => (li, r.value))) })

/-! ### The aggregator `calculate_all_kpis` (kpi.py lines 800-883) -/

/-- Python's `a or b` on two floats where `NaN` is modelled by `none`: `NaN`
is TRUTHY in Python, so `a or b` falls through to `b` only when `a` is an
actual zero.  This is the semantics of the source line
`shares = get("shares_outstanding") or get("weighted_avg_shares_basic")`. -/
def pyFloatOr (a b : Option ℚ) : Option ℚ :=
  match a with
  | none => none
  | some x => if x = 0 then b else some x

/-- Embeds `calculate_all_kpis(row)`: every KPI evaluated against one wide
row, in source order, with the shared `shares` value for the per-share
metrics.  The Python dict is modelled as an association list. -/
def calculate_all_kpis (row : WideRow) : List (String × Option ℚ) :=
  let get := fun col => wideGet row col
  let shares := pyFloatOr (get "shares_outstanding") (get "weighted_avg_shares_basic")
  [("roe", return_on_equity (get "net_income") (get "total_equity")),
   ("roa", return_on_assets (get "net_income") (get "total_assets")),
   ("nim", net_interest_margin (get "net_interest_income") (get "total_assets")),
   ("efficiency_ratio", efficiency_ratio (get "noninterest_expense") (get "total_revenue")),
   ("ppnr", pre_provision_net_revenue (get "net_interest_income")
      (get "noninterest_income") (get "noninterest_expense")),
   ("eps", earnings_per_share (get "net_income") shares),
   ("bvps", book_value_per_share (get "total_equity") shares),
   ("tbvps", tangible_book_value_per_share (get "total_equity") (get "goodwill")
      (get "intangible_assets") shares),
   ("equity_to_assets", equity_to_assets (get "total_equity") (get "total_assets")),
   ("tce_ratio", tangible_equity_ratio (get "total_equity") (get "goodwill")
      (get "intangible_assets") (get "total_assets")),
   ("leverage", leverage_ratio (get "total_assets") (get "total_equity")),
   ("ldr", loan_to_deposit_ratio (get "loans_net") (get "total_deposits")),
   ("allowance_coverage", allowance_coverage_ratio (get "allowance_for_loan_losses")
      (get "loans_net"))]

/-! ### Quality checks (quality/checks.py) and report serialization -/

/-- Embeds the `Severity` enum. -/
inductive Severity where
  | info
  | warning
  | error
deriving DecidableEq

/-- Embeds `Severity.value` (the string payload of the enum member). -/
def Severity.value : Severity → String
  | .info => "info"
  | .warning => "warning"
  | .error => "error"

/-- Embeds the dataclass `QualityWarning`; `details` holds the numeric
key/value pairs the checks record. -/
structure QualityWarning where
  check_name : String
  severity : Severity
  ticker : String
  period : String
  message : String
  details : List (String × ℚ)
deriving DecidableEq

/-- Embeds the dataclass `QualityReport` (the mutable accumulator: a check
appending to it is modelled by returning the appended warnings). -/
structure QualityReport where
  warnings : List QualityWarning
  checks_run : List String
deriving DecidableEq

/-- A DataFrame of string cells, as `to_dataframe` produces and
`_save_quality_report` writes to CSV: the column header list and the data
rows. -/
structure StrFrame where
  columns : List String
  rows : List (List String)
deriving DecidableEq

/-- Embeds `QualityReport.to_dataframe`: an empty report yields
`pd.DataFrame()` — a frame with NO columns and no rows; a nonempty one yields
one record per warning with the five named columns. -/
def QualityReport.to_dataframe (r : QualityReport) : StrFrame :=
  if r.warnings.isEmpty then { columns := [], rows := [] }
  else
    { columns := ["check_name", "severity", "ticker", "period", "message"]
      rows := r.warnings.map (fun w =>
        [w.check_name, w.severity.value, w.ticker, w.period, w.message]) }

/-- Embeds `FundamentalsPipeline._save_quality_report`, as the table written
to `quality_report.csv`: the report frame when it has rows, otherwise an
explicit header-only frame. -/
def save_quality_report (r : QualityReport) : StrFrame :=
  let report_df := r.to_dataframe
  if 0 < report_df.rows.length then report_df
  else { columns := ["check_name", "severity", "ticker", "period", "message"], rows := [] }

/-- The checked frame: `check_balance_sheet_identity` first tests that the
three required columns exist in `df.columns`, then iterates rows; a wide
frame's rows are `WideRow`s. -/
structure Frame where
  columns : List String
  rows : List WideRow

/-- The phrase the balance-identity warning message is asserted to contain
(the apostrophe is written as the escape `\x27`). -/
def doesNotBalancePhrase : String := "doesn\x27t balance"

/-- The body of the row loop of `check_balance_sheet_identity`: zero or one
warning per row.  The Python message interpolates the two floats with
`{:,.0f}` (thousands separators, rounded); here they are rendered by
`toString` of the rational — the rendering of the numbers is irrelevant to
every claim, which concern only the fixed phrase and the warning count. -/
def balanceRowWarnings (tolerance : ℚ) (row : WideRow) : List QualityWarning :=
  match wideGet row "total_assets", wideGet row "total_liabilities",
      wideGet row "total_equity" with
  | some assets, some liabilities, some equity =>
    if assets = 0 then []
    else
      let expected := liabilities + equity
      let diff := |assets - expected|
      let rel_diff := diff / |assets|
      if rel_diff > tolerance then
        [{ check_name := "balance_sheet_identity"
           severity := .warning
           ticker := row.ticker
           period := toString row.fiscal_year ++ "-" ++ row.fiscal_period
           message := "Balance sheet " ++ doesNotBalancePhrase ++ ": A="
             ++ toString assets ++ ", L+E=" ++ toString expected
           details := [("diff", diff), ("rel_diff", rel_diff)] }]
      else []
  | _, _, _ => []

/-- Embeds `check_balance_sheet_identity(df, report, tolerance=0.01)` as the
list of warnings it appends to the report: nothing when a required column is
missing from the frame, otherwise the per-row warnings in row order.  (The
function also appends its name to `report.checks_run`, which no claim
concerns.) -/
def check_balance_sheet_identity (df : Frame) (tolerance : ℚ) : List QualityWarning :=
  if ["total_assets", "total_liabilities", "total_equity"].all
      (fun c => df.columns.contains c) then
    df.rows.flatMap (balanceRowWarnings tolerance)
  else []

/-! ### The line-item registry `BANK_LINE_ITEM_MAPPINGS` (xbrl_normalize.py
lines 62-528), in source (dict insertion) order.  Apostrophes in two display
strings are written as the escape `\x27`. -/

/-- The full registry constant, as a name-keyed association list. -/
def BANK_LINE_ITEM_MAPPINGS : List (String × LineItemMapping) :=
  [("total_revenue",
    { name := "total_revenue", display_name := "Total Revenue"
      category := "income_statement"
      tags := ["us-gaap:Revenues",
               "us-gaap:RevenueFromContractWithCustomerExcludingAssessedTax",
               "us-gaap:SalesRevenueNet",
               "us-gaap:InterestAndDividendIncomeOperating"]
      is_flow := true, expected_sign := "positive", unit_filter := "USD"
      description := "Total revenues including interest and non-interest income" }),
   ("net_interest_income",
    { name := "net_interest_income", display_name := "Net Interest Income"
      category := "income_statement"
      tags := ["us-gaap:InterestIncomeExpenseNet",
               "us-gaap:NetInterestIncome",
               "us-gaap:InterestIncomeExpenseAfterProvisionForLoanLoss"]
      is_flow := true, expected_sign := "positive", unit_filter := "USD"
      description := "Interest income minus interest expense" }),
   ("noninterest_income",
    { name := "noninterest_income", display_name := "Non-Interest Income"
      category := "income_statement"
      tags := ["us-gaap:NoninterestIncome",
               "us-gaap:FeesAndCommissions",
               "us-gaap:InvestmentBankingRevenue"]
      is_flow := true, expected_sign := "positive", unit_filter := "USD"
      description := "Fee income, trading, investment banking, etc." }),
   ("provision_for_credit_losses",
    { name := "provision_for_credit_losses"
      display_name := "Provision for Credit Losses"
      category := "income_statement"
      tags := ["us-gaap:ProvisionForLoanLeaseAndOtherLosses",
               "us-gaap:ProvisionForLoanAndLeaseLosses",
               "us-gaap:ProvisionForCreditLosses"]
      is_flow := true, expected_sign := "any", unit_filter := "USD"
      description := "Provision for loan losses and credit impairments" }),
   ("noninterest_expense",
    { name := "noninterest_expense", display_name := "Non-Interest Expense"
      category := "income_statement"
      tags := ["us-gaap:NoninterestExpense",
               "us-gaap:OperatingExpenses",
               "us-gaap:GeneralAndAdministrativeExpense"]
      is_flow := true, expected_sign := "positive", unit_filter := "USD"
      description := "Salaries, occupancy, technology, other operating costs" }),
   ("income_before_tax",
    { name := "income_before_tax", display_name := "Income Before Tax"
      category := "income_statement"
      tags := ["us-gaap:IncomeLossFromContinuingOperationsBeforeIncomeTaxesExtraordinaryItemsNoncontrollingInterest",
               "us-gaap:IncomeLossFromContinuingOperationsBeforeIncomeTaxes",
               "us-gaap:IncomeLossBeforeIncomeTaxes"]
      is_flow := true, expected_sign := "any", unit_filter := "USD"
      description := "Pre-tax income from continuing operations" }),
   ("income_tax_expense",
    { name := "income_tax_expense", display_name := "Income Tax Expense"
      category := "income_statement"
      tags := ["us-gaap:IncomeTaxExpenseBenefit",
               "us-gaap:IncomeTaxesPaid"]
      is_flow := true, expected_sign := "any", unit_filter := "USD"
      description := "Current and deferred income tax expense" }),
   ("net_income",
    { name := "net_income", display_name := "Net Income"
      category := "income_statement"
      tags := ["us-gaap:NetIncomeLoss",
               "us-gaap:ProfitLoss",
               "us-gaap:NetIncomeLossAvailableToCommonStockholdersBasic"]
      is_flow := true, expected_sign := "any", unit_filter := "USD"
      description := "Net income attributable to common shareholders" }),
   ("comprehensive_income",
    { name := "comprehensive_income", display_name := "Comprehensive Income"
      category := "income_statement"
      tags := ["us-gaap:ComprehensiveIncomeNetOfTax",
               "us-gaap:ComprehensiveIncomeNetOfTaxIncludingPortionAttributableToNoncontrollingInterest"]
      is_flow := true, expected_sign := "any", unit_filter := "USD"
      description := "Net income plus other comprehensive income" }),
   ("total_assets",
    { name := "total_assets", display_name := "Total Assets"
      category := "balance_sheet"
      tags := ["us-gaap:Assets"]
      is_flow := false, expected_sign := "positive", unit_filter := "USD"
      description := "Total assets" }),
   ("cash_and_equivalents",
    { name := "cash_and_equivalents"
      display_name := "Cash and Cash Equivalents"
      category := "balance_sheet"
      tags := ["us-gaap:CashAndCashEquivalentsAtCarryingValue",
               "us-gaap:Cash",
               "us-gaap:CashCashEquivalentsAndShortTermInvestments"]
      is_flow := false, expected_sign := "positive", unit_filter := "USD"
      description := "Cash and liquid assets" }),
   ("trading_assets",
    { name := "trading_assets", display_name := "Trading Assets"
      category := "balance_sheet"
      tags := ["us-gaap:TradingSecurities",
               "us-gaap:TradingAssets",
               "us-gaap:MarketableSecurities"]
      is_flow := false, expected_sign := "positive", unit_filter := "USD"
      description := "Securities held for trading" }),
   ("investment_securities",
    { name := "investment_securities", display_name := "Investment Securities"
      category := "balance_sheet"
      tags := ["us-gaap:AvailableForSaleSecuritiesDebtSecurities",
               "us-gaap:HeldToMaturitySecurities",
               "us-gaap:InvestmentsInDebtAndMarketableEquitySecuritiesAndCertainTradingAssetsDisclosureTextBlock"]
      is_flow := false, expected_sign := "positive", unit_filter := "USD"
      description := "AFS and HTM securities" }),
   ("loans_net",
    { name := "loans_net", display_name := "Loans, Net"
      category := "balance_sheet"
      tags := ["us-gaap:LoansAndLeasesReceivableNetReportedAmount",
               "us-gaap:LoansReceivableNet",
               "us-gaap:LoansAndLeasesReceivableNetOfDeferredIncome"]
      is_flow := false, expected_sign := "positive", unit_filter := "USD"
      description := "Net loans after allowance for loan losses" }),
   ("allowance_for_loan_losses",
    { name := "allowance_for_loan_losses"
      display_name := "Allowance for Loan Losses"
      category := "balance_sheet"
      tags := ["us-gaap:FinancingReceivableAllowanceForCreditLosses",
               "us-gaap:AllowanceForLoanAndLeaseLossesRealEstate",
               "us-gaap:LoansAndLeasesReceivableAllowance"]
      is_flow := false, expected_sign := "positive", unit_filter := "USD"
      description := "Reserve for expected credit losses" }),
   ("goodwill",
    { name := "goodwill", display_name := "Goodwill"
      category := "balance_sheet"
      tags := ["us-gaap:Goodwill"]
      is_flow := false, expected_sign := "positive", unit_filter := "USD"
      description := "Goodwill from acquisitions" }),
   ("intangible_assets",
    { name := "intangible_assets", display_name := "Intangible Assets"
      category := "balance_sheet"
      tags := ["us-gaap:IntangibleAssetsNetExcludingGoodwill",
               "us-gaap:FiniteLivedIntangibleAssetsNet"]
      is_flow := false, expected_sign := "positive", unit_filter := "USD"
      description := "Intangible assets excluding goodwill" }),
   ("total_liabilities",
    { name := "total_liabilities", display_name := "Total Liabilities"
      category := "balance_sheet"
      tags := ["us-gaap:Liabilities"]
      is_flow := false, expected_sign := "positive", unit_filter := "USD"
      description := "Total liabilities" }),
   ("total_deposits",
    { name := "total_deposits", display_name := "Total Deposits"
      category := "balance_sheet"
      tags := ["us-gaap:Deposits",
               "us-gaap:DepositsDomestic"]
      is_flow := false, expected_sign := "positive", unit_filter := "USD"
      description := "Customer deposits" }),
   ("short_term_borrowings",
    { name := "short_term_borrowings", display_name := "Short-Term Borrowings"
      category := "balance_sheet"
      tags := ["us-gaap:ShortTermBorrowings",
               "us-gaap:CommercialPaper",
               "us-gaap:FederalFundsPurchasedAndSecuritiesSoldUnderAgreementsToRepurchase"]
      is_flow := false, expected_sign := "positive", unit_filter := "USD"
      description := "Short-term debt and repo" }),
   ("long_term_debt",
    { name := "long_term_debt", display_name := "Long-Term Debt"
      category := "balance_sheet"
      tags := ["us-gaap:LongTermDebt",
               "us-gaap:LongTermDebtNoncurrent",
               "us-gaap:SeniorNotes"]
      is_flow := false, expected_sign := "positive", unit_filter := "USD"
      description := "Long-term debt obligations" }),
   ("total_equity",
    { name := "total_equity", display_name := "Total Stockholders\x27 Equity"
      category := "balance_sheet"
      tags := ["us-gaap:StockholdersEquity",
               "us-gaap:StockholdersEquityIncludingPortionAttributableToNoncontrollingInterest"]
      is_flow := false, expected_sign := "positive", unit_filter := "USD"
      description := "Total shareholders\x27 equity" }),
   ("common_stock",
    { name := "common_stock", display_name := "Common Stock"
      category := "balance_sheet"
      tags := ["us-gaap:CommonStockValue",
               "us-gaap:CommonStocksIncludingAdditionalPaidInCapital"]
      is_flow := false, expected_sign := "positive", unit_filter := "USD"
      description := "Common stock at par + APIC" }),
   ("retained_earnings",
    { name := "retained_earnings", display_name := "Retained Earnings"
      category := "balance_sheet"
      tags := ["us-gaap:RetainedEarningsAccumulatedDeficit"]
      is_flow := false, expected_sign := "any", unit_filter := "USD"
      description := "Accumulated retained earnings" }),
   ("treasury_stock",
    { name := "treasury_stock", display_name := "Treasury Stock"
      category := "balance_sheet"
      tags := ["us-gaap:TreasuryStockValue",
               "us-gaap:TreasuryStockCommonValue"]
      is_flow := false, expected_sign := "positive", unit_filter := "USD"
      description := "Treasury stock at cost" }),
   ("accumulated_other_comprehensive_income",
    { name := "accumulated_other_comprehensive_income"
      display_name := "AOCI"
      category := "balance_sheet"
      tags := ["us-gaap:AccumulatedOtherComprehensiveIncomeLossNetOfTax"]
      is_flow := false, expected_sign := "any", unit_filter := "USD"
      description := "Accumulated other comprehensive income/loss" }),
   ("shares_outstanding",
    { name := "shares_outstanding", display_name := "Shares Outstanding"
      category := "shares"
      tags := ["us-gaap:CommonStockSharesOutstanding",
               "us-gaap:CommonStockSharesIssued"]
      is_flow := false, expected_sign := "positive", unit_filter := "shares"
      description := "Common shares outstanding" }),
   ("weighted_avg_shares_basic",
    { name := "weighted_avg_shares_basic"
      display_name := "Weighted Avg Shares (Basic)"
      category := "shares"
      tags := ["us-gaap:WeightedAverageNumberOfSharesOutstandingBasic"]
      is_flow := true, expected_sign := "positive", unit_filter := "shares"
      description := "Weighted average shares for basic EPS" }),
   ("weighted_avg_shares_diluted",
    { name := "weighted_avg_shares_diluted"
      display_name := "Weighted Avg Shares (Diluted)"
      category := "shares"
      tags := ["us-gaap:WeightedAverageNumberOfDilutedSharesOutstanding"]
      is_flow := true, expected_sign := "positive", unit_filter := "shares"
      description := "Weighted average shares for diluted EPS" }),
   ("operating_cash_flow",
    { name := "operating_cash_flow", display_name := "Operating Cash Flow"
      category := "cash_flow"
      tags := ["us-gaap:NetCashProvidedByUsedInOperatingActivities"]
      is_flow := true, expected_sign := "any", unit_filter := "USD"
      description := "Net cash from operating activities" }),
   ("investing_cash_flow",
    { name := "investing_cash_flow", display_name := "Investing Cash Flow"
      category := "cash_flow"
      tags := ["us-gaap:NetCashProvidedByUsedInInvestingActivities"]
      is_flow := true, expected_sign := "any", unit_filter := "USD"
      description := "Net cash from investing activities" }),
   ("financing_cash_flow",
    { name := "financing_cash_flow", display_name := "Financing Cash Flow"
      category := "cash_flow"
      tags := ["us-gaap:NetCashProvidedByUsedInFinancingActivities"]
      is_flow := true, expected_sign := "any", unit_filter := "USD"
      description := "Net cash from financing activities" }),
   ("dividends_paid",
    { name := "dividends_paid", display_name := "Dividends Paid"
      category := "cash_flow"
      tags := ["us-gaap:PaymentsOfDividendsCommonStock",
               "us-gaap:PaymentsOfDividends"]
      is_flow := true, expected_sign := "positive", unit_filter := "USD"
      description := "Cash dividends paid to shareholders" }),
   ("share_repurchases",
    { name := "share_repurchases", display_name := "Share Repurchases"
      category := "cash_flow"
      tags := ["us-gaap:PaymentsForRepurchaseOfCommonStock",
               "us-gaap:StockRepurchasedDuringPeriodValue"]
      is_flow := true, expected_sign := "positive", unit_filter := "USD"
      description := "Cash paid for share buybacks" })]

/-! ### Concrete fixtures used by witnesses and counterexamples -/

/-- A minimal single-tag USD mapping for concrete resolution scenarios. -/
def mapAssetsUSD : LineItemMapping :=
  { name := "total_assets", display_name := "Total Assets"
    category := "balance_sheet", tags := ["us-gaap:Assets"]
    is_flow := false, expected_sign := "positive", unit_filter := "USD"
    description := "Total assets" }

/-- A mapping whose `unit_filter` is neither "USD" nor "shares" (the dataclass
documents "pure" as a legal value): the `else` branch of the unit filter. -/
def mapPure : LineItemMapping :=
  { name := "some_ratio", display_name := "Some Ratio"
    category := "regulatory", tags := ["us-gaap:Assets"]
    is_flow := false, expected_sign := "any", unit_filter := "pure"
    description := "A pure-unit concept" }

/-- An earlier-dated 10-Q assets fact. -/
def factEarly : RawFact :=
  { date := 10, cik := "0000019617", ticker := "JPM", tag := "us-gaap:Assets"
    value := some 100, unit := "USD", fp := "Q1", fy := 2024, form := "10-Q" }

/-- A later-dated 10-Q assets fact for the same period, a restatement of
`factEarly`. -/
def factLate : RawFact :=
  { date := 20, cik := "0000019617", ticker := "JPM", tag := "us-gaap:Assets"
    value := some 200, unit := "USD", fp := "Q1", fy := 2024, form := "10-Q" }

/-- A 10-Q assets fact (form-preference scenario). -/
def factTenQ : RawFact :=
  { date := 5, cik := "0000019617", ticker := "JPM", tag := "us-gaap:Assets"
    value := some 200, unit := "USD", fp := "Q1", fy := 2024, form := "10-Q" }

/-- An 8-K assets fact for the same period with a different value and a later
date than `factTenQ`. -/
def factEightK : RawFact :=
  { date := 9, cik := "0000019617", ticker := "JPM", tag := "us-gaap:Assets"
    value := some 100, unit := "USD", fp := "Q1", fy := 2024, form := "8-K" }

/-- A shares-unit fact carrying the assets tag: wrong unit for a USD concept. -/
def factWrongUnit : RawFact :=
  { date := 30, cik := "0000019617", ticker := "JPM", tag := "us-gaap:Assets"
    value := some 999, unit := "shares", fp := "Q1", fy := 2024, form := "10-Q" }

/-- The quarterly net-income fact of the round-trip scenario (13e9 USD). -/
def rtFactNetIncome : RawFact :=
  { date := 20240331, cik := "0000019617", ticker := "JPM"
    tag := "us-gaap:NetIncomeLoss", value := some 13000000000
    unit := "USD", fp := "Q1", fy := 2024, form := "10-Q" }

/-- The quarterly total-equity fact of the round-trip scenario (300e9 USD). -/
def rtFactEquity : RawFact :=
  { date := 20240331, cik := "0000019617", ticker := "JPM"
    tag := "us-gaap:StockholdersEquity", value := some 300000000000
    unit := "USD", fp := "Q1", fy := 2024, form := "10-Q" }

/-- A wide row with `shares_outstanding` absent but
`weighted_avg_shares_basic` present and valid. -/
def rowNoShares : WideRow :=
  { ticker := "JPM", fiscal_year := 2024, fiscal_period := "Q1", date := 0
    cells := [("net_income", 1000), ("total_equity", 5000),
              ("weighted_avg_shares_basic", 100)] }

/-- A wide row with assets 100, liabilities 80, equity 10: the balance
identity is off by 10%. -/
def rowOff : WideRow :=
  { ticker := "JPM", fiscal_year := 2024, fiscal_period := "Q1", date := 0
    cells := [("total_assets", 100), ("total_liabilities", 80),
              ("total_equity", 10)] }

/-- A wide row with assets 100, liabilities 80, equity 20: the balance
identity holds exactly. -/
def rowBalanced : WideRow :=
  { ticker := "JPM", fiscal_year := 2024, fiscal_period := "Q1", date := 0
    cells := [("total_assets", 100), ("total_liabilities", 80),
              ("total_equity", 20)] }

/-- A frame holding `rowOff`, with the three required columns declared. -/
def frameOff : Frame :=
  { columns := ["ticker", "fiscal_year", "fiscal_period", "date", "total_assets",
                "total_liabilities", "total_equity"]
    rows := [rowOff] }

/-- A frame holding `rowBalanced`, with the three required columns declared. -/
def frameBalanced : Frame :=
  { columns := ["ticker", "fiscal_year", "fiscal_period", "date", "total_assets",
                "total_liabilities", "total_equity"]
    rows := [rowBalanced] }

/-! ## Theorems -/

/-- C10: `pre_provision_net_revenue` with all three inputs missing returns 0,
not the not-a-number sentinel — each invalid additive term is coerced to 0,
so the all-missing case is a defined value, unlike the ratio KPIs. -/
theorem c10_ppnr_all_missing_is_zero :
    pre_provision_net_revenue none none none = some 0 := by
  norm_num [pre_provision_net_revenue, is_invalid]

/-- C9: serializing a QualityReport with no warnings still produces the
header-only table: `_save_quality_report` writes the five header columns
`check_name, severity, ticker, period, message` and zero data rows. -/
theorem c9_empty_report_header_only (r : QualityReport) (h : r.warnings = []) :
    save_quality_report r
      = { columns := ["check_name", "severity", "ticker", "period", "message"]
          rows := [] } := by
  simp [save_quality_report, QualityReport.to_dataframe, h]

/-- Witness for C9 at the empty report. -/
theorem c9_empty_report_header_only_witness :
    save_quality_report { warnings := [], checks_run := [] }
      = { columns := ["check_name", "severity", "ticker", "period", "message"]
          rows := [] } :=
  c9_empty_report_header_only { warnings := [], checks_run := [] } rfl

/-- C4 counterexample: for a definition whose `unit_filter` is `"pure"`
(a documented legal value of the dataclass field), a fact whose unit is
`"USD"` — not equal to the `unit_filter` — IS selected, because the `else`
branch of `_extract_line_item`'s unit filter applies no filtering at all. -/
theorem c4_counterexample :
    extract_line_item [factEarly] mapPure = some (100, "us-gaap:Assets")
      ∧ factEarly.unit ≠ mapPure.unit_filter := by
  constructor
  · rfl
  · decide

/-- C4 as amended: for a definition whose `unit_filter` is `"USD"` or
`"shares"`, facts of any other unit are invisible to the concept — removing
them from the input does not change the resolved value — even when their tag
matches; for other `unit_filter` values the code applies no unit filtering. -/
theorem c4_wrong_unit_invisible (m : LineItemMapping) (facts : List RawFact)
    (h : m.unit_filter = "USD" ∨ m.unit_filter = "shares") :
    extract_line_item facts m
      = extract_line_item (facts.filter (fun f => f.unit == m.unit_filter)) m := by
  have key : unitFilterFacts m (facts.filter (fun f => f.unit == m.unit_filter))
      = unitFilterFacts m facts := by
    rcases h with h | h <;>
      simp [unitFilterFacts, h, List.filter_filter]
  simp [extract_line_item, key]

/-- Witness for C4 at a concrete USD concept with one USD and one
shares-unit fact. -/
theorem c4_wrong_unit_invisible_witness :
    extract_line_item [factEarly, factWrongUnit] mapAssetsUSD
      = extract_line_item
          ([factEarly, factWrongUnit].filter
            (fun f => f.unit == mapAssetsUSD.unit_filter)) mapAssetsUSD :=
  c4_wrong_unit_invisible mapAssetsUSD [factEarly, factWrongUnit] (Or.inl rfl)

/-- C6 (the code bug): on a wide row where `shares_outstanding` is absent but
`weighted_avg_shares_basic` is present and valid, `calculate_all_kpis` leaves
`eps`, `bvps` and `tbvps` as the not-a-number sentinel instead of computing
them from the fallback share count — `row.get` yields `NaN` for the absent
column, `NaN` is truthy in Python, so the `or` fallback never fires; the
fallback value would have given `eps = 10`. -/
theorem c6_share_fallback_not_taken :
    wideGet rowNoShares "shares_outstanding" = none
      ∧ wideGet rowNoShares "weighted_avg_shares_basic" = some 100
      ∧ (calculate_all_kpis rowNoShares).lookup "eps" = some none
      ∧ (calculate_all_kpis rowNoShares).lookup "bvps" = some none
      ∧ (calculate_all_kpis rowNoShares).lookup "tbvps" = some none
      ∧ earnings_per_share (wideGet rowNoShares "net_income")
          (wideGet rowNoShares "weighted_avg_shares_basic") = some 10 := by
  refine ⟨rfl, rfl, rfl, rfl, rfl, ?_⟩
  have hni : wideGet rowNoShares "net_income" = some 1000 := rfl
  have hwab : wideGet rowNoShares "weighted_avg_shares_basic" = some 100 := rfl
  rw [hni, hwab]
  norm_num [earnings_per_share, is_invalid, is_zero, zeroEps]

/-- The common guard shape of the two-input ratio functions: invalid-input
check, then the epsilon guard on the denominator, then a value. -/
theorem guarded_eq_none_iff (a b : Option ℚ) (q : ℚ) :
    (if is_invalid a || is_invalid b then none
     else if is_zero b then none else some q) = none
      ↔ a = none ∨ b = none ∨ |b.getD 0| < zeroEps := by
  cases a <;> cases b <;> simp [is_invalid, is_zero, zeroEps]

/-- The `0 if _is_invalid(v) else v` coercion is `Option.getD 0`. -/
theorem coerce_invalid_eq_getD (o : Option ℚ) :
    (if is_invalid o then 0 else o.getD 0) = o.getD 0 := by
  cases o <;> simp [is_invalid]

/-- C5 counterexample: `allowance_coverage_ratio(5, 0)` returns the
not-a-number sentinel although both required inputs are present and the
formula's denominator `loans_net + allowance = 5` is far above the epsilon —
the function has an extra guard on `loans_net` alone, which is not a
denominator of the documented formula `allowance / (loans_net + allowance)`. -/
theorem c5_counterexample :
    allowance_coverage_ratio (some 5) (some 0) = none
      ∧ is_invalid (some (5 : ℚ)) = false
      ∧ is_invalid (some (0 : ℚ)) = false
      ∧ ¬(|(0 : ℚ) + 5| < zeroEps) := by
  refine ⟨?_, rfl, rfl, ?_⟩
  · norm_num [allowance_coverage_ratio, is_invalid, is_zero, zeroEps]
  · norm_num [zeroEps]

/-- C5 as amended: every KPI ratio function is a total function (each is a
Lean function by construction, as every path of the Python code returns), and
each returns the not-a-number sentinel exactly when a required input is
missing/not-a-number or a denominator's absolute value is below `1e-10` —
with the one exception forced by the counterexample: in addition,
`allowance_coverage_ratio` returns the sentinel when `|loans_net| < 1e-10`
even though `loans_net` alone is not the formula's denominator.  In
particular `return_on_equity(x, 0, annualize=False)` is not-a-number for
every x. -/
theorem c5_ratio_none_characterization :
    (∀ a b ann ppy, return_on_equity a b ann ppy = none
        ↔ a = none ∨ b = none ∨ |b.getD 0| < zeroEps)
    ∧ (∀ a b ann ppy, return_on_assets a b ann ppy = none
        ↔ a = none ∨ b = none ∨ |b.getD 0| < zeroEps)
    ∧ (∀ a b ann ppy, net_interest_margin a b ann ppy = none
        ↔ a = none ∨ b = none ∨ |b.getD 0| < zeroEps)
    ∧ (∀ a b, efficiency_ratio a b = none
        ↔ a = none ∨ b = none ∨ |b.getD 0| < zeroEps)
    ∧ (∀ a b, earnings_per_share a b = none
        ↔ a = none ∨ b = none ∨ |b.getD 0| < zeroEps)
    ∧ (∀ a b, book_value_per_share a b = none
        ↔ a = none ∨ b = none ∨ |b.getD 0| < zeroEps)
    ∧ (∀ te gw ig sh, tangible_book_value_per_share te gw ig sh = none
        ↔ te = none ∨ sh = none ∨ |sh.getD 0| < zeroEps)
    ∧ (∀ a b, price_to_book a b = none
        ↔ a = none ∨ b = none ∨ |b.getD 0| < zeroEps)
    ∧ (∀ a b, price_to_earnings a b = none
        ↔ a = none ∨ b = none ∨ |b.getD 0| < zeroEps)
    ∧ (∀ a b, price_to_tangible_book a b = none
        ↔ a = none ∨ b = none ∨ |b.getD 0| < zeroEps)
    ∧ (∀ a b, equity_to_assets a b = none
        ↔ a = none ∨ b = none ∨ |b.getD 0| < zeroEps)
    ∧ (∀ te gw ig ta, tangible_equity_ratio te gw ig ta = none
        ↔ te = none ∨ ta = none
          ∨ |ta.getD 0 - gw.getD 0 - ig.getD 0| < zeroEps)
    ∧ (∀ a b, leverage_ratio a b = none
        ↔ a = none ∨ b = none ∨ |b.getD 0| < zeroEps)
    ∧ (∀ alw ln, allowance_coverage_ratio alw ln = none
        ↔ alw = none ∨ ln = none ∨ |ln.getD 0| < zeroEps
          ∨ |ln.getD 0 + alw.getD 0| < zeroEps)
    ∧ (∀ a b ann ppy, net_charge_off_ratio a b ann ppy = none
        ↔ a = none ∨ b = none ∨ |b.getD 0| < zeroEps)
    ∧ (∀ a b, loan_to_deposit_ratio a b = none
        ↔ a = none ∨ b = none ∨ |b.getD 0| < zeroEps)
    ∧ (∀ a b, yoy_growth a b = none
        ↔ a = none ∨ b = none ∨ |b.getD 0| < zeroEps)
    ∧ (∀ a b, qoq_growth a b = none
        ↔ a = none ∨ b = none ∨ |b.getD 0| < zeroEps)
    ∧ (∀ x, return_on_equity x (some 0) false 4 = none) := by
  refine ⟨?_, ?_, ?_, ?_, ?_, ?_, ?_, ?_, ?_, ?_, ?_, ?_, ?_, ?_, ?_, ?_, ?_,
    ?_, ?_⟩
  · intro a b ann ppy
    simpa only [return_on_equity] using guarded_eq_none_iff a b _
  · intro a b ann ppy
    simpa only [return_on_assets] using guarded_eq_none_iff a b _
  · intro a b ann ppy
    simpa only [net_interest_margin] using guarded_eq_none_iff a b _
  · intro a b
    simpa only [efficiency_ratio] using guarded_eq_none_iff a b _
  · intro a b
    simpa only [earnings_per_share] using guarded_eq_none_iff a b _
  · intro a b
    simpa only [book_value_per_share] using guarded_eq_none_iff a b _
  · intro te gw ig sh
    simpa only [tangible_book_value_per_share] using guarded_eq_none_iff te sh _
  · intro a b
    simpa only [price_to_book] using guarded_eq_none_iff a b _
  · intro a b
    simpa only [price_to_earnings] using guarded_eq_none_iff a b _
  · intro a b
    simpa only [price_to_tangible_book] using guarded_eq_none_iff a b _
  · intro a b
    simpa only [equity_to_assets] using guarded_eq_none_iff a b _
  · intro te gw ig ta
    cases te <;> cases ta <;> cases gw <;> cases ig <;>
      simp [tangible_equity_ratio, is_invalid, is_zero, zeroEps]
  · intro a b
    simpa only [leverage_ratio] using guarded_eq_none_iff a b _
  · intro alw ln
    cases alw with
    | none => simp [allowance_coverage_ratio, is_invalid]
    | some a =>
      cases ln with
      | none => simp [allowance_coverage_ratio, is_invalid]
      | some l =>
        simp [allowance_coverage_ratio, is_invalid, is_zero, zeroEps]
        constructor
        · intro h
          by_cases hl : |l| < (10 ^ 10 : ℚ)⁻¹
          · exact Or.inl hl
          · exact Or.inr (h (not_lt.mp hl))
        · intro h h2
          rcases h with h | h
          · exact absurd h (not_lt.mpr h2)
          · exact h
  · intro a b ann ppy
    simpa only [net_charge_off_ratio] using guarded_eq_none_iff a b _
  · intro a b
    simpa only [loan_to_deposit_ratio] using guarded_eq_none_iff a b _
  · intro a b
    simpa only [yoy_growth] using guarded_eq_none_iff a b _
  · intro a b
    simpa only [qoq_growth] using guarded_eq_none_iff a b _
  · intro x
    cases x <;> norm_num [return_on_equity, is_invalid, is_zero, zeroEps]

/-- C7: for a frame with the three balance-sheet columns and a row with
assets, liabilities and equity all present and assets nonzero, the
balance-identity check contributes exactly one severity=warning entry whose
message contains the phrase about not balancing when the relative gap
`|assets - (liabilities+equity)| / |assets|` exceeds the 1% tolerance, and
no entry otherwise. -/
theorem c7_balance_identity_check (df : Frame) (row : WideRow) (a l e : ℚ)
    (hcols : (["total_assets", "total_liabilities", "total_equity"].all
      (fun c => df.columns.contains c)) = true)
    (ha : wideGet row "total_assets" = some a)
    (hl : wideGet row "total_liabilities" = some l)
    (he : wideGet row "total_equity" = some e)
    (hnz : a ≠ 0) :
    check_balance_sheet_identity df (1 / 100)
        = df.rows.flatMap (balanceRowWarnings (1 / 100))
      ∧ (|a - (l + e)| / |a| > 1 / 100 →
          ∃ w, balanceRowWarnings (1 / 100) row = [w]
            ∧ w.severity = Severity.warning
            ∧ ∃ s1 s2, w.message = s1 ++ doesNotBalancePhrase ++ s2)
      ∧ (¬(|a - (l + e)| / |a| > 1 / 100) →
          balanceRowWarnings (1 / 100) row = []) := by
  refine ⟨?_, ?_, ?_⟩
  · unfold check_balance_sheet_identity
    rw [if_pos hcols]
  · intro hgt
    simp only [balanceRowWarnings, ha, hl, he, if_neg hnz, if_pos hgt]
    refine ⟨_, rfl, rfl, "Balance sheet ",
      ": A=" ++ toString a ++ ", L+E=" ++ toString (l + e), ?_⟩
    simp [String.append_assoc]
  · intro hle
    simp only [balanceRowWarnings, ha, hl, he, if_neg hnz, if_neg hle]

/-- Witness for C7: the theorem applied at assets=100, liabilities=80,
equity=10, together with the two concrete outcomes of the claim — that row
yields exactly one warning, and the balanced row (equity=20) yields none. -/
theorem c7_balance_identity_check_witness :
    (check_balance_sheet_identity frameOff (1 / 100)
        = frameOff.rows.flatMap (balanceRowWarnings (1 / 100))
      ∧ (|(100 : ℚ) - (80 + 10)| / |(100 : ℚ)| > 1 / 100 →
          ∃ w, balanceRowWarnings (1 / 100) rowOff = [w]
            ∧ w.severity = Severity.warning
            ∧ ∃ s1 s2, w.message = s1 ++ doesNotBalancePhrase ++ s2)
      ∧ (¬(|(100 : ℚ) - (80 + 10)| / |(100 : ℚ)| > 1 / 100) →
          balanceRowWarnings (1 / 100) rowOff = []))
    ∧ (check_balance_sheet_identity frameOff (1 / 100)).length = 1
    ∧ check_balance_sheet_identity frameBalanced (1 / 100) = [] := by
  refine ⟨c7_balance_identity_check frameOff rowOff 100 80 10 (by decide)
      rfl rfl rfl (by norm_num), ?_, ?_⟩
  · have hc : (["total_assets", "total_liabilities", "total_equity"].all
        (fun c => frameOff.columns.contains c)) = true := rfl
    have ha : wideGet rowOff "total_assets" = some 100 := rfl
    have hl : wideGet rowOff "total_liabilities" = some 80 := rfl
    have he : wideGet rowOff "total_equity" = some 10 := rfl
    have hrows : frameOff.rows = [rowOff] := rfl
    unfold check_balance_sheet_identity
    rw [if_pos hc]
    simp only [hrows, List.flatMap_cons, List.flatMap_nil, List.append_nil,
      balanceRowWarnings, ha, hl, he]
    rw [if_neg (by norm_num : ¬(100 : ℚ) = 0),
      if_pos (by norm_num : |(100 : ℚ) - (80 + 10)| / |(100 : ℚ)| > 1 / 100)]
    rfl
  · have hc : (["total_assets", "total_liabilities", "total_equity"].all
        (fun c => frameBalanced.columns.contains c)) = true := rfl
    have ha : wideGet rowBalanced "total_assets" = some 100 := rfl
    have hl : wideGet rowBalanced "total_liabilities" = some 80 := rfl
    have he : wideGet rowBalanced "total_equity" = some 20 := rfl
    have hrows : frameBalanced.rows = [rowBalanced] := rfl
    unfold check_balance_sheet_identity
    rw [if_pos hc]
    simp only [hrows, List.flatMap_cons, List.flatMap_nil, List.append_nil,
      balanceRowWarnings, ha, hl, he]
    rw [if_neg (by norm_num : ¬(100 : ℚ) = 0),
      if_neg (by norm_num : ¬(|(100 : ℚ) - (80 + 20)| / |(100 : ℚ)| > 1 / 100))]

end BankLab

namespace BankLab

/-- C8 counterexample: the round-trip value is NOT the "quarterly
unannualized" ROE.  `calculate_all_kpis` calls `return_on_equity` with its
default `annualize=True`, so the value derived from the normalized fact set
(net_income=13e9, total_equity=300e9) is `13/75 ≈ 0.1733` — the annualized
figure — while the quarterly unannualized ROE of the same inputs is
`13/300 ≈ 0.0433`, which is not within any reasonable tolerance of 0.1733. -/
theorem c8_counterexample :
    ((to_wide_format (normalize [rtFactNetIncome, rtFactEquity] 2015
          BANK_LINE_ITEM_MAPPINGS)).map
        (fun w => (calculate_all_kpis w).lookup "roe")
      = [some (return_on_equity (some 13000000000) (some 300000000000) true 4)])
      ∧ return_on_equity (some 13000000000) (some 300000000000) true 4
          = some (13 / 75)
      ∧ return_on_equity (some 13000000000) (some 300000000000) false 4
          = some (13 / 300)
      ∧ (13 : ℚ) / 300 ≠ 13 / 75
      ∧ ¬(|13 / 300 - 1733 / 10000| ≤ (1 : ℚ) / 1000) := by
  refine ⟨rfl, ?_, ?_, ?_, ?_⟩
  · norm_num [return_on_equity, is_invalid, is_zero, zeroEps]
  · norm_num [return_on_equity, is_invalid, is_zero, zeroEps]
  · norm_num
  · rw [abs_sub_comm]
    rw [abs_of_nonneg (by norm_num : (0 : ℚ) ≤ 1733 / 10000 - 13 / 300)]
    norm_num

/-- C8 as amended: normalizing the literal fact set (net_income=13e9,
total_equity=300e9 for one quarter), projecting to wide format and deriving
`roe` via `calculate_all_kpis` yields exactly the value of directly computing
`return_on_equity` on the hand-assembled inputs with the aggregator's default
arguments — namely `13/300 × 4 = 13/75 ≈ 0.1733`, the default-annualized
figure (the unannualized quarterly ROE would be ≈ 0.0433). -/
theorem c8_roundtrip_roe :
    ((to_wide_format (normalize [rtFactNetIncome, rtFactEquity] 2015
          BANK_LINE_ITEM_MAPPINGS)).map
        (fun w => (calculate_all_kpis w).lookup "roe")
      = [some (return_on_equity (some 13000000000) (some 300000000000) true 4)])
      ∧ return_on_equity (some 13000000000) (some 300000000000) true 4
          = some (13 / 75)
      ∧ |13 / 75 - 1733 / 10000| ≤ (1 : ℚ) / 1000 := by
  refine ⟨rfl, ?_, ?_⟩
  · norm_num [return_on_equity, is_invalid, is_zero, zeroEps]
  · rw [abs_of_nonneg (by norm_num : (0 : ℚ) ≤ 13 / 75 - 1733 / 10000)]
    norm_num

end BankLab

namespace BankLab

/-- A fact returned by `latestByDate` belongs to the candidate list. -/
theorem latestByDate_mem : ∀ {l : List RawFact} {f : RawFact},
    latestByDate l = some f → f ∈ l := by
  intro l
  induction l with
  | nil => intro f h; cases h
  | cons a rest ih =>
    intro f h
    rw [latestByDate] at h
    cases hrec : latestByDate rest with
    | none =>
      simp only [hrec] at h
      cases h
      exact List.mem_cons_self a rest
    | some g =>
      simp only [hrec] at h
      split at h
      · cases h
        exact List.mem_cons_of_mem a (ih hrec)
      · cases h
        exact List.mem_cons_self a rest

/-- When the candidate list has a strictly unique maximum date, `latestByDate`
selects that candidate. -/
theorem latestByDate_unique_max : ∀ {l : List RawFact} {f : RawFact},
    f ∈ l → (∀ g ∈ l, g ≠ f → g.date < f.date) → latestByDate l = some f := by
  intro l
  induction l with
  | nil => intro f h; cases h
  | cons a rest ih =>
    intro f hmem hmax
    rw [latestByDate]
    rcases List.mem_cons.mp hmem with rfl | hrest
    · cases hrec : latestByDate rest with
      | none => rfl
      | some g =>
        have hg : g ∈ rest := latestByDate_mem hrec
        by_cases hgf : g = f
        · subst hgf
          show (if g.date > g.date then some g else some g) = some g
          exact ite_self _
        · have hlt : g.date < f.date :=
            hmax g (List.mem_cons_of_mem f hg) hgf
          show (if g.date > f.date then some g else some f) = some f
          rw [if_neg (not_lt.mpr (le_of_lt hlt))]
    · have hfr : latestByDate rest = some f :=
        ih hrest (fun g hg => hmax g (List.mem_cons_of_mem a hg))
      rw [hfr]
      by_cases haf : a = f
      · subst haf
        show (if a.date > a.date then some a else some a) = some a
        exact ite_self _
      · have hlt : a.date < f.date := hmax a (List.mem_cons_self a rest) haf
        show (if f.date > a.date then some f else some a) = some f
        rw [if_pos hlt]

/-- Form-preference filtering never enlarges the candidate list. -/
theorem filterPreferredForms_length_le : ∀ (fs : List String) (l : List RawFact),
    (filterPreferredForms fs l).length ≤ l.length := by
  intro fs
  induction fs with
  | nil => intro l; exact le_refl _
  | cons fo rest ih =>
    intro l
    rw [filterPreferredForms]
    by_cases h : (l.filter (fun f => f.form == fo)).isEmpty
    · rw [if_pos h]; exact ih l
    · rw [if_neg h]; exact List.length_filter_le _ l

/-- Tags with no matching fact in the unit-filtered frame are skipped by the
tag-priority loop. -/
theorem extractFromTags_skip : ∀ (pre rest : List String) (unit_df : List RawFact),
    (∀ s ∈ pre, unit_df.filter (fun f => f.tag == s) = []) →
    extractFromTags unit_df (pre ++ rest) = extractFromTags unit_df rest := by
  intro pre
  induction pre with
  | nil => intro rest unit_df _; rfl
  | cons s pre ih =>
    intro rest unit_df hpre
    rw [List.cons_append, extractFromTags]
    rw [hpre s (List.mem_cons_self s pre)]
    exact ih rest unit_df (fun x hx => hpre x (List.mem_cons_of_mem s hx))

/-- C1: when, after unit filtering, tag-priority selection (tag `t` is the
first tag of the definition with any match) and form-preference filtering,
more than one candidate remains and one candidate's date is strictly the most
recent, `_extract_line_item` emits that candidate's value (the `date` column
is the single date the normalizer sees — the spec's `filed_date`). -/
theorem c1_most_recent_date_wins (facts : List RawFact) (m : LineItemMapping)
    (t : String) (pre post : List String) (fmax : RawFact) (v : ℚ)
    (htags : m.tags = pre ++ t :: post)
    (hpre : ∀ s ∈ pre, (unitFilterFacts m facts).filter (fun f => f.tag == s) = [])
    (hlen : 1 < (filterPreferredForms preferred_forms
      ((unitFilterFacts m facts).filter (fun f => f.tag == t))).length)
    (hmem : fmax ∈ filterPreferredForms preferred_forms
      ((unitFilterFacts m facts).filter (fun f => f.tag == t)))
    (hmax : ∀ g ∈ filterPreferredForms preferred_forms
      ((unitFilterFacts m facts).filter (fun f => f.tag == t)),
      g ≠ fmax → g.date < fmax.date)
    (hval : fmax.value = some v) :
    extract_line_item facts m = some (v, t) := by
  unfold extract_line_item
  rw [htags, extractFromTags_skip pre (t :: post) _ hpre, extractFromTags]
  have hlen2 : 1 <
      ((unitFilterFacts m facts).filter (fun f => f.tag == t)).length :=
    lt_of_lt_of_le hlen (filterPreferredForms_length_le _ _)
  have hne : ((unitFilterFacts m facts).filter (fun f => f.tag == t)).isEmpty
      = false := by
    cases h : (unitFilterFacts m facts).filter (fun f => f.tag == t) with
    | nil => rw [h] at hlen2; simp at hlen2
    | cons x xs => rfl
  rw [hne]
  simp only [Bool.false_eq_true, if_false]
  unfold dedupCandidates
  rw [if_pos hlen2, latestByDate_unique_max hmem hmax]
  simp [hval]

/-- Witness for C1: two 10-Q facts with the same tag and form, dates 10 and
20 and values 100 and 200 — the later-dated restatement's value 200 is the
one emitted. -/
theorem c1_most_recent_date_wins_witness :
    extract_line_item [factEarly, factLate] mapAssetsUSD
      = some (200, "us-gaap:Assets") :=
  c1_most_recent_date_wins [factEarly, factLate] mapAssetsUSD "us-gaap:Assets"
    [] [] factLate 200 rfl (by intro s hs; cases hs) (by decide) (by decide)
    (by decide) rfl

end BankLab

namespace BankLab

/-- The form-preference loop equals its specification: filter to the first
preferred form with any match, keep the whole set when none matches. -/
theorem filterPreferredForms_eq_find (fs : List String) (l : List RawFact) :
    filterPreferredForms fs l
      = match fs.find? (fun fo => l.any (fun f => f.form == fo)) with
        | some fo => l.filter (fun f => f.form == fo)
        | none => l := by
  induction fs with
  | nil => rfl
  | cons fo rest ih =>
    rw [filterPreferredForms]
    by_cases h : (l.filter (fun f => f.form == fo)).isEmpty
    · have hnil : l.filter (fun f => f.form == fo) = [] := List.isEmpty_iff.mp h
      have hany : ¬(l.any (fun f => f.form == fo)) = true := by
        rw [Bool.not_eq_true, List.any_eq_false]
        exact List.filter_eq_nil_iff.mp hnil
      rw [if_pos h, ih, List.find?_cons_of_neg rest hany]
    · have hne : l.filter (fun f => f.form == fo) ≠ [] := by
        intro hc
        exact h (by rw [hc]; rfl)
      have hany : (l.any (fun f => f.form == fo)) = true := by
        rcases List.exists_mem_of_ne_nil _ hne with ⟨x, hx⟩
        rcases List.mem_filter.mp hx with ⟨hxl, hpx⟩
        exact List.any_eq_true.mpr ⟨x, hxl, hpx⟩
      rw [if_neg h, List.find?_cons_of_pos rest hany]

/-- C3: the deduplication stage filters the winning tag's duplicate
candidates to the first form of [10-K, 10-Q, 10-K/A, 10-Q/A] that has any
match and keeps the full set only when none of those forms is present;
consequently, for two same-tag facts of one period, a 10-Q one and an 8-K
one with different values, `_extract_line_item` selects the 10-Q value —
whichever order the two facts appear in. -/
theorem c3_form_preference (tag_df : List RawFact) (m : LineItemMapping)
    (t : String) (pre post : List String) (f1 f2 : RawFact) (v1 : ℚ)
    (htags : m.tags = pre ++ t :: post)
    (hpre : ∀ s ∈ pre, s ≠ t)
    (hunit : unitFilterFacts m [f1, f2] = [f1, f2])
    (hunit2 : unitFilterFacts m [f2, f1] = [f2, f1])
    (ht1 : f1.tag = t) (ht2 : f2.tag = t)
    (hform1 : f1.form = "10-Q") (hform2 : f2.form = "8-K")
    (hv1 : f1.value = some v1) :
    (filterPreferredForms preferred_forms tag_df
      = match preferred_forms.find? (fun fo => tag_df.any (fun f => f.form == fo)) with
        | some fo => tag_df.filter (fun f => f.form == fo)
        | none => tag_df)
    ∧ extract_line_item [f1, f2] m = some (v1, t)
    ∧ extract_line_item [f2, f1] m = some (v1, t) := by
  have hskip : ∀ (l : List RawFact), (∀ f ∈ l, f.tag = t) →
      ∀ s ∈ pre, l.filter (fun f => f.tag == s) = [] := by
    intro l hl s hs
    rw [List.filter_eq_nil_iff]
    intro f hf
    rw [hl f hf]
    exact fun hc => (hpre s hs) (beq_iff_eq.mp hc).symm
  have hffp : ∀ (a b : RawFact), a.form = "10-Q" → b.form = "8-K" →
      filterPreferredForms preferred_forms [a, b] = [a] := by
    intro a b hfa hfb
    show filterPreferredForms ("10-K" :: "10-Q" :: "10-K/A" :: "10-Q/A" :: []) [a, b] = [a]
    rw [filterPreferredForms]
    rw [if_pos (by simp [List.filter, hfa, hfb])]
    rw [filterPreferredForms]
    have hfil : [a, b].filter (fun f => f.form == "10-Q") = [a] := by
      simp [List.filter, hfa, hfb]
    rw [hfil]
    rw [if_neg (by simp)]
  have hmain : ∀ (a b : RawFact), a.tag = t → b.tag = t →
      a.form = "10-Q" → b.form = "8-K" → a.value = some v1 →
      unitFilterFacts m [a, b] = [a, b] →
      extract_line_item [a, b] m = some (v1, t) := by
    intro a b hta htb hfa hfb hva hu
    unfold extract_line_item
    rw [hu, htags]
    have hab : ∀ f ∈ [a, b], f.tag = t := by
      intro f hf
      rcases List.mem_cons.mp hf with rfl | hf2
      · exact hta
      · rcases List.mem_cons.mp hf2 with rfl | hf3
        · exact htb
        · cases hf3
    rw [extractFromTags_skip pre (t :: post) _ (hskip [a, b] hab)]
    rw [extractFromTags]
    have htag_df : [a, b].filter (fun f => f.tag == t) = [a, b] := by
      simp [List.filter, hta, htb]
    rw [htag_df]
    simp only [List.isEmpty_cons, Bool.false_eq_true, if_false]
    unfold dedupCandidates
    rw [if_pos (by simp : 1 < ([a, b] : List RawFact).length)]
    rw [hffp a b hfa hfb]
    simp [latestByDate, hva]
  refine ⟨filterPreferredForms_eq_find preferred_forms tag_df, ?_, ?_⟩
  · exact hmain f1 f2 ht1 ht2 hform1 hform2 hv1 hunit
  · -- reversed order: the 8-K fact first; form preference still selects f1
    unfold extract_line_item
    rw [hunit2, htags]
    have hab : ∀ f ∈ [f2, f1], f.tag = t := by
      intro f hf
      rcases List.mem_cons.mp hf with rfl | hf2
      · exact ht2
      · rcases List.mem_cons.mp hf2 with rfl | hf3
        · exact ht1
        · cases hf3
    rw [extractFromTags_skip pre (t :: post) _ (hskip [f2, f1] hab)]
    rw [extractFromTags]
    have htag_df : [f2, f1].filter (fun f => f.tag == t) = [f2, f1] := by
      simp [List.filter, ht1, ht2]
    rw [htag_df]
    simp only [List.isEmpty_cons, Bool.false_eq_true, if_false]
    unfold dedupCandidates
    rw [if_pos (by simp : 1 < ([f2, f1] : List RawFact).length)]
    have hswap : filterPreferredForms preferred_forms [f2, f1] = [f1] := by
      show filterPreferredForms ("10-K" :: "10-Q" :: "10-K/A" :: "10-Q/A" :: []) [f2, f1] = [f1]
      rw [filterPreferredForms]
      rw [if_pos (by simp [List.filter, hform1, hform2])]
      rw [filterPreferredForms]
      have hfil : [f2, f1].filter (fun f => f.form == "10-Q") = [f1] := by
        simp [List.filter, hform1, hform2]
      rw [hfil]
      rw [if_neg (by simp)]
    rw [hswap]
    simp [latestByDate, hv1]

/-- Witness for C3: a 10-Q assets fact (value 200) and a later-dated 8-K
assets fact (value 100) for the same period — the 10-Q value is selected in
either input order. -/
theorem c3_form_preference_witness :
    (filterPreferredForms preferred_forms [factTenQ, factEightK]
      = match preferred_forms.find?
          (fun fo => [factTenQ, factEightK].any (fun f => f.form == fo)) with
        | some fo => [factTenQ, factEightK].filter (fun f => f.form == fo)
        | none => [factTenQ, factEightK])
    ∧ extract_line_item [factTenQ, factEightK] mapAssetsUSD
        = some (200, "us-gaap:Assets")
    ∧ extract_line_item [factEightK, factTenQ] mapAssetsUSD
        = some (200, "us-gaap:Assets") :=
  c3_form_preference [factTenQ, factEightK] mapAssetsUSD "us-gaap:Assets"
    [] [] factTenQ factEightK 200 rfl (by intro s hs; cases hs) rfl rfl
    rfl rfl rfl rfl rfl

end BankLab

namespace BankLab

/-- Members of `(l.filterMap g).map kf` project into `l.map ka` when `g`
preserves the key. -/
theorem mem_map_filterMap_key {α β κ : Type} {l : List α} {g : α → Option β}
    {kf : β → κ} {ka : α → κ}
    (hg : ∀ a b, g a = some b → kf b = ka a) :
    ∀ x ∈ (l.filterMap g).map kf, x ∈ l.map ka := by
  intro x hx
  rcases List.mem_map.mp hx with ⟨b, hb, rfl⟩
  rcases List.mem_filterMap.mp hb with ⟨a, ha, hga⟩
  rw [hg a b hga]
  exact List.mem_map_of_mem ka ha

/-- A `filterMap` emitting at most one element per input, keyed compatibly
with a duplicate-free key list, emits duplicate-free keys. -/
theorem nodup_map_filterMap_key {α β κ : Type} {l : List α} {g : α → Option β}
    {kf : β → κ} {ka : α → κ}
    (hg : ∀ a b, g a = some b → kf b = ka a)
    (h : (l.map ka).Nodup) : ((l.filterMap g).map kf).Nodup := by
  induction l with
  | nil => simp
  | cons a l ih =>
    rw [List.map_cons, List.nodup_cons] at h
    rw [List.filterMap_cons]
    cases hga : g a with
    | none => exact ih h.2
    | some b =>
      rw [List.map_cons, List.nodup_cons]
      refine ⟨?_, ih h.2⟩
      intro hc
      have hmem := mem_map_filterMap_key hg (kf b) hc
      rw [hg a b hga] at hmem
      exact h.1 hmem

/-- What membership in `_normalize_ticker`'s output means: the row carries
the given ticker, a period key from the frame, a mapping name, and a value
produced by `_extract_line_item` on that period's facts. -/
theorem mem_normalize_ticker {r : NormalizedRow} {tdf : List RawFact}
    {tkr : String} {ms : List (String × LineItemMapping)}
    (h : r ∈ normalize_ticker tdf tkr ms) :
    r.ticker = tkr ∧ ∃ p ∈ (tdf.map (fun f => (f.fy, f.fp))).dedup,
      r.fiscal_year = p.1 ∧ r.fiscal_period = p.2 ∧
      ∃ nm ∈ ms, r.line_item = nm.1 ∧
        extract_line_item (tdf.filter (fun f => f.fy == p.1 && f.fp == p.2)) nm.2
          = some (r.value, r.source_tag) := by
  unfold normalize_ticker at h
  rcases List.mem_flatMap.mp h with ⟨p, hp, hin⟩
  rcases List.mem_filterMap.mp hin with ⟨nm, hnm, heq⟩
  cases hext : extract_line_item
      (tdf.filter (fun f => f.fy == p.1 && f.fp == p.2)) nm.2 with
  | none => rw [hext] at heq; cases heq
  | some vt =>
    rw [hext] at heq
    cases heq
    exact ⟨rfl, p, hp, rfl, rfl, nm, hnm, rfl, by rw [hext]; rfl⟩

end BankLab

namespace BankLab

/-- Keys emitted for one ticker are duplicate-free when the registry's names
are: every period contributes each mapping name at most once, and distinct
periods stamp distinct (fy, fp) components. -/
theorem nodup_keys_normalize_ticker (tdf : List RawFact) (t : String)
    (ms : List (String × LineItemMapping)) (hms : (ms.map Prod.fst).Nodup) :
    ((normalize_ticker tdf t ms).map NormalizedRow.key).Nodup := by
  have hgp : ∀ (p : ℤ × String) (nm : String × LineItemMapping) (r : NormalizedRow),
      (extract_line_item (tdf.filter (fun f => f.fy == p.1 && f.fp == p.2)) nm.2).map
        (mkNormalizedRow t p (tdf.filter (fun f => f.fy == p.1 && f.fp == p.2)) nm)
        = some r →
      NormalizedRow.key r = (t, p.1, p.2, nm.1) := by
    intro p nm r heq
    cases hext : extract_line_item
        (tdf.filter (fun f => f.fy == p.1 && f.fp == p.2)) nm.2 with
    | none => rw [hext] at heq; cases heq
    | some vt => rw [hext] at heq; cases heq; rfl
  unfold normalize_ticker
  rw [List.map_flatMap]
  apply List.nodup_flatMap.mpr
  constructor
  · intro p hp
    refine nodup_map_filterMap_key (hgp p) ?_
    have h2 : ms.map (fun nm : String × LineItemMapping => (t, p.1, p.2, nm.1))
        = (ms.map Prod.fst).map (fun n => (t, p.1, p.2, n)) := by
      rw [List.map_map]
      rfl
    rw [h2]
    refine List.Nodup.map ?_ hms
    intro a b hab
    simpa using hab
  · have hnd := List.nodup_dedup (tdf.map (fun f => (f.fy, f.fp)))
    refine hnd.imp ?_
    intro p q hpq
    simp only [Function.onFun]
    intro x hx1 hx2
    rcases List.mem_map.mp (mem_map_filterMap_key (hgp p) x hx1) with ⟨nm1, _, he1⟩
    rcases List.mem_map.mp (mem_map_filterMap_key (hgp q) x hx2) with ⟨nm2, _, he2⟩
    apply hpq
    have h12 := he1.trans he2.symm
    simp only [Prod.mk.injEq] at h12
    exact Prod.ext h12.2.1 h12.2.2.1

/-- C2: for every raw fact set, minimum year and registry with
duplicate-free names, `normalize` never emits two rows with the same
(entity, fiscal_year, fiscal_period, concept) key; and every emitted row is a
successful `_extract_line_item` resolution — a row is only appended when a
value was found, so no null-valued row exists (structurally, `value` is a
plain rational). -/
theorem c2_normalize_unique_keys (raw : List RawFact) (min_year : ℤ)
    (mappings : List (String × LineItemMapping))
    (hnodup : (mappings.map Prod.fst).Nodup) :
    ((normalize raw min_year mappings).map NormalizedRow.key).Nodup
    ∧ ∀ r ∈ normalize raw min_year mappings,
        ∃ nm ∈ mappings, r.line_item = nm.1 ∧
          ∃ pdf : List RawFact,
            extract_line_item pdf nm.2 = some (r.value, r.source_tag) := by
  constructor
  · simp only [normalize]
    rw [List.map_flatMap]
    apply List.nodup_flatMap.mpr
    constructor
    · intro t ht
      exact nodup_keys_normalize_ticker _ t mappings hnodup
    · have hnd := List.nodup_dedup
        ((raw.filter (fun f => decide (min_year ≤ f.fy)
          && ["Q1", "Q2", "Q3", "Q4", "FY"].contains f.fp)).map (fun f => f.ticker))
      refine hnd.imp ?_
      intro t1 t2 hne
      simp only [Function.onFun]
      intro x hx1 hx2
      rcases List.mem_map.mp hx1 with ⟨r1, hr1, hk1⟩
      rcases List.mem_map.mp hx2 with ⟨r2, hr2, hk2⟩
      apply hne
      rw [← (mem_normalize_ticker hr1).1, ← (mem_normalize_ticker hr2).1]
      exact congrArg Prod.fst (hk1.trans hk2.symm)
  · intro r hr
    simp only [normalize] at hr
    rcases List.mem_flatMap.mp hr with ⟨t, ht, hin⟩
    rcases mem_normalize_ticker hin with ⟨_, p, hp, _, _, nm, hnm, hli, hext⟩
    exact ⟨nm, hnm, hli, _, hext⟩

/-- Witness for C2 at the round-trip fact set and the full registry (whose 34
names are duplicate-free). -/
theorem c2_normalize_unique_keys_witness :
    ((normalize [rtFactNetIncome, rtFactEquity] 2015
        BANK_LINE_ITEM_MAPPINGS).map NormalizedRow.key).Nodup
    ∧ ∀ r ∈ normalize [rtFactNetIncome, rtFactEquity] 2015 BANK_LINE_ITEM_MAPPINGS,
        ∃ nm ∈ BANK_LINE_ITEM_MAPPINGS, r.line_item = nm.1 ∧
          ∃ pdf : List RawFact,
            extract_line_item pdf nm.2 = some (r.value, r.source_tag) :=
  c2_normalize_unique_keys [rtFactNetIncome, rtFactEquity] 2015
    BANK_LINE_ITEM_MAPPINGS (by decide)

end BankLab
